import Mathlib

/-!
Verification development for the `file_manager.py` terminal file browser.

The Python source is shallowly embedded: the filesystem is an oracle
`FS : List String → ListingResult` mapping an absolute path (as a list of
components, `[]` being the root `/`) to the outcome of `os.listdir` plus the
per-entry `os.lstat` results; entry names returned by a listing never contain
a path separator and are never `.` or `..`, so `os.path.join p name` is
`p ++ [name]`, `os.path.basename` is `getLast` and
`os.path.normpath (os.path.join p "..")` is `dropLast p`.  Curses calls are
modelled by their effect on the navigation state plus an explicit effect
trace (`Eff`) recording terminal suspension/restoration and the filesystem
mutations a handler performs.  Strings are Lean `String`s; Python's
case-insensitive comparison `name.lower()` is modelled for code points via
`Char.toLower` (exact for the ASCII names used in every concrete scenario).
-/

namespace FileManager

/-- Model of Python's list/str containment needle check, on character lists:
`isPre n h` is true when `n` is a leading segment of `h`. -/
def isPre : List Char → List Char → Bool
  | [], _ => true
  | _ :: _, [] => false
  | a :: as, b :: bs => a == b && isPre as bs

/-- Model of Python's `needle in hay` substring test. -/
def strContains (hay needle : String) : Bool :=
  (List.range (hay.data.length + 1)).any (fun i => isPre needle.data (hay.data.drop i))

/-- Model of Python's `str.lower()` (code-point lowering; exact on ASCII). -/
def pyLower (s : String) : String := ⟨s.data.map Char.toLower⟩

/-- Lexicographic (code-point) string order, as Python compares `str`. -/
def lexLe : List Char → List Char → Bool
  | [], _ => true
  | _ :: _, [] => false
  | a :: as, b :: bs =>
    if a.toNat < b.toNat then true
    else if b.toNat < a.toNat then false
    else lexLe as bs

/-- `a <= b` on strings, Python-style (code-point lexicographic). -/
def strLe (a b : String) : Bool := lexLe a.data b.data

/-- Result of one successful `os.lstat` call. -/
structure StatResult where
  st_size : Int
  st_mtime : Int
  st_mode : Nat
deriving DecidableEq, Repr

/-- Outcome of `os.listdir(path)` together with the per-entry `os.lstat`
results: `none` for an entry means its stat raised
(`PermissionError`/`FileNotFoundError`/`OSError`). -/
inductive ListingResult where
  | permissionError
  | notFound
  | ok (entries : List (String × Option StatResult))
deriving DecidableEq, Repr

/-- A filesystem oracle: listing outcome for every directory path. -/
def FS : Type := List String → ListingResult

/-- `stat.S_ISDIR`: the file-type bits (mask `0o170000 = 61440`) equal
`0o040000 = 16384`. -/
def S_ISDIR (m : Nat) : Bool := m &&& 61440 == 16384

/-- One item dictionary produced by `get_directory_contents`. -/
structure Entry where
  name : String
  path : List String
  is_dir : Bool
  size : Option Int
  mtime : Option Int
  mode : Nat
deriving DecidableEq, Repr

/-- Building one item record (the body of the `for item_name` loop):
a successful `lstat` fills the fields (`size` is `-1` for directories);
a failed one appends the `" [?]"` marker to the name and leaves the
defaults `is_dir=False`, `size=None`, `mtime=None`, `mode=0`. -/
def mkItem (dirPath : List String) : String × Option StatResult → Entry
  | (nm, some st) =>
    let d := S_ISDIR st.st_mode
    { name := nm, path := dirPath ++ [nm], is_dir := d,
      size := some (if d then -1 else st.st_size),
      mtime := some st.st_mtime, mode := st.st_mode }
  | (nm, none) =>
    { name := nm ++ " [?]", path := dirPath ++ [nm], is_dir := false,
      size := none, mtime := none, mode := 0 }

/-- The sort key comparison `(not is_dir, name.lower())` used by
`items.sort(key=lambda x: (not x["is_dir"], x["name"].lower()))`:
directories (key `False`) before files (key `True`), ties broken by the
lowercased name compared lexicographically. -/
def entryLEb (a b : Entry) : Bool :=
  if a.is_dir = b.is_dir then strLe (pyLower a.name) (pyLower b.name)
  else a.is_dir

/-- `entryLEb` as a relation, for `List.insertionSort`. -/
def entryLE (a b : Entry) : Prop := entryLEb a b = true

instance : DecidableRel entryLE := fun a b =>
  inferInstanceAs (Decidable (entryLEb a b = true))

instance : IsTotal Entry entryLE where
  total := by
    have hlex : ∀ (a b : List Char), lexLe a b = true ∨ lexLe b a = true := by
      intro a
      induction a with
      | nil => intro b; exact .inl rfl
      | cons x xs ih =>
        intro b
        cases b with
        | nil => exact .inr rfl
        | cons y ys =>
          simp only [lexLe]
          rcases Nat.lt_trichotomy x.toNat y.toNat with hlt | heq | hgt
          · left; simp [hlt]
          · rw [heq]; simpa using ih ys
          · right; simp [hgt]
    intro a b
    unfold entryLE entryLEb strLe
    by_cases hd : a.is_dir = b.is_dir
    · rw [if_pos hd, if_pos hd.symm]
      exact hlex _ _
    · rw [if_neg hd, if_neg (Ne.symm hd)]
      cases ha : a.is_dir <;> cases hb : b.is_dir <;> simp_all

instance : IsTrans Entry entryLE where
  trans := by
    have hlex : ∀ (a b c : List Char),
        lexLe a b = true → lexLe b c = true → lexLe a c = true := by
      intro a
      induction a with
      | nil => intro b c _ _; rfl
      | cons x xs ih =>
        intro b c h1 h2
        cases b with
        | nil => simp [lexLe] at h1
        | cons y ys =>
          cases c with
          | nil => simp [lexLe] at h2
          | cons z zs =>
            simp only [lexLe] at h1 h2 ⊢
            by_cases hxy : x.toNat < y.toNat <;> by_cases hyx : y.toNat < x.toNat <;>
              by_cases hyz : y.toNat < z.toNat <;> by_cases hzy : z.toNat < y.toNat <;>
              by_cases hxz : x.toNat < z.toNat <;> by_cases hzx : z.toNat < x.toNat <;>
              simp only [hxy, hyx, hyz, hzy, hxz, hzx, if_true, if_false] at h1 h2 ⊢ <;>
              first
                | rfl
                | omega
                | exact ih ys zs h1 h2
                | simp_all
    intro a b c h1 h2
    unfold entryLE entryLEb strLe at h1 h2 ⊢
    by_cases hab : a.is_dir = b.is_dir <;> by_cases hbc : b.is_dir = c.is_dir
    · have hac : a.is_dir = c.is_dir := hab.trans hbc
      rw [if_pos hab] at h1; rw [if_pos hbc] at h2; rw [if_pos hac]
      exact hlex _ _ _ h1 h2
    · have hac : ¬ a.is_dir = c.is_dir := fun hh => hbc (hab.symm.trans hh)
      rw [if_neg hbc] at h2; rw [if_neg hac]
      rw [hab]; exact h2
    · have hac : ¬ a.is_dir = c.is_dir := fun hh => hab (hh.trans hbc.symm)
      rw [if_neg hab] at h1; rw [if_neg hac]
      exact h1
    · rw [if_neg hab] at h1; rw [if_neg hbc] at h2
      rw [h1, h2] at hab
      exact absurd rfl hab

/-- `get_directory_contents(path)`: `None` when the directory itself raises
`PermissionError`, `[]` when it vanished, otherwise the item records sorted
directories-first then case-insensitively by name. -/
def get_directory_contents (fs : FS) (path : List String) : Option (List Entry) :=
  match fs path with
  | .permissionError => none
  | .notFound => some []
  | .ok raw => some (List.insertionSort entryLE (raw.map (mkItem path)))

/-- The navigation state owned by `main`'s event loop:
`current_path`, `contents_cache`, `selected_index`, `scroll_offset`,
`status_message`. -/
structure NavState where
  current_path : List String
  contents_cache : List Entry
  selected_index : Nat
  scroll_offset : Nat
  status_message : String
deriving DecidableEq, Repr

/-- Rendering of a component path as the absolute path string used in
status messages. -/
def pathStr (p : List String) : String := "/" ++ String.intercalate "/" p

/-- Index of the first list element satisfying `p` (the
`for i, item in enumerate(...): if ...: break` search in
`refresh_contents`). -/
def firstIdx (p : Entry → Bool) : List Entry → Option Nat
  | [] => none
  | e :: t => if p e then some 0 else (firstIdx p t).map (· + 1)

/-- The `select_name` reselection loop of `refresh_contents`: starting from
`selected_index = scroll_offset = 0`, find the first entry named
`select_name` (a falsy — empty or absent — name skips the loop), select it,
and when `list_height > 0` pull the scroll offset down so it is visible. -/
def refreshSelect (h : Nat) (cs : List Entry) (select_name : Option String) : Nat × Nat :=
  match select_name with
  | none => (0, 0)
  | some n =>
    if n = "" then (0, 0)
    else
      match firstIdx (fun e => e.name == n) cs with
      | none => (0, 0)
      | some i => (i, if 0 < h then (if i ≥ 0 + h then i - h + 1 else 0) else 0)

/-- `refresh_contents(path_to_refresh, select_name)`: re-list `path`; on
permission failure set the permission-error status and empty the cache;
on success replace the cache and keep the previous status (unless it was
empty or itself a `"Refreshed."` message); reset the indices and reselect
`select_name`.  `h` is `list_height = max_y - 4`, identical to the render
pass's `content_height`. -/
def refresh_contents (fs : FS) (h : Nat) (path : List String)
    (select_name : Option String) (s : NavState) : NavState :=
  let prev_status := if strContains s.status_message "Refreshed." then "" else s.status_message
  match get_directory_contents fs path with
  | none =>
    { s with status_message := "Error refreshing: Permission denied: " ++ pathStr path,
             contents_cache := [], selected_index := 0, scroll_offset := 0 }
  | some cs =>
    let st := if prev_status = "" then "Refreshed." else prev_status
    let sel := refreshSelect h cs select_name
    { s with contents_cache := cs, status_message := st,
             selected_index := sel.1, scroll_offset := sel.2 }

/-- The loop-top clamp (`if not contents: selected_index = 0 else:
selected_index = max(0, min(selected_index, len(contents) - 1))`). -/
def clampSel (s : NavState) : NavState :=
  if s.contents_cache.isEmpty then { s with selected_index := 0 }
  else { s with selected_index := min s.selected_index (s.contents_cache.length - 1) }

/-- The drawing section's scroll adjustment (`if selected_index <
scroll_offset ... elif selected_index >= scroll_offset + content_height
...`); `h` is `content_height`. -/
def renderScroll (h : Nat) (s : NavState) : NavState :=
  if s.selected_index < s.scroll_offset then { s with scroll_offset := s.selected_index }
  else if s.selected_index ≥ s.scroll_offset + h then
    { s with scroll_offset := s.selected_index - h + 1 }
  else s

/-- One frame's effect on the navigation state: loop-top clamp followed by
the drawing section's scroll adjustment. -/
def renderPass (h : Nat) (s : NavState) : NavState := renderScroll h (clampSel s)

/-- `len(contents) - 1 if contents else 0`. -/
def lastIndex (s : NavState) : Nat :=
  if s.contents_cache.isEmpty then 0 else s.contents_cache.length - 1

/-- The navigation events of the claim: arrow moves, page moves and an
explicit refresh. -/
inductive NavEvent where
  | moveUp
  | moveDown
  | pageUp
  | pageDown
  | refreshEv (path : List String) (selectName : Option String)

/-- The key-dispatch transitions for `KEY_UP`, `KEY_DOWN`, `KEY_PPAGE`,
`KEY_NPAGE` and a `refresh_contents` call; `h` is `content_height`. -/
def applyEvent (fs : FS) (h : Nat) (s : NavState) : NavEvent → NavState
  | .moveUp => { s with selected_index := s.selected_index - 1 }
  | .moveDown => { s with selected_index := min (lastIndex s) (s.selected_index + 1) }
  | .pageUp =>
    let se := s.selected_index - h
    { s with selected_index := se,
             scroll_offset := if se < s.scroll_offset then se else s.scroll_offset }
  | .pageDown =>
    let se := min (lastIndex s) (s.selected_index + h)
    { s with selected_index := se,
             scroll_offset := if se ≥ s.scroll_offset + h then se - h + 1 else s.scroll_offset }
  | .refreshEv p nm => refresh_contents fs h p nm s

/-- Observable effects of one key handler: terminal handoff
(`curses.endwin` / `curses.initscr` re-initialisation), process spawns and
filesystem mutations, plus the `refresh_contents` convergence call. -/
inductive Eff where
  | suspend
  | restore
  | spawnRun (p : List String)
  | spawnView (p : List String)
  | rmdirEff (p : List String)
  | removeEff (p : List String)
  | moveOp (src dst : List String)
  | copyOp (src dst : List String)
  | refreshEff (p : List String)
deriving DecidableEq, Repr

/-- Outcome of a `subprocess.run` call: the child exited with a code, the
spawn raised `FileNotFoundError` (command not on PATH), or some other
exception was raised while spawning/waiting. -/
inductive SpawnOutcome where
  | exited (code : Int)
  | spawnNotFound
  | failed (msg : String)
deriving DecidableEq, Repr

/-- Result of one key handler: the navigation state after the bottom-of-loop
`status_message = action_status or status_message` merge (skipped by the
handler's own `continue`), the handler's final `action_status`, and its
effect trace. -/
structure ActionResult where
  state : NavState
  action_status : String
  effs : List Eff
deriving DecidableEq, Repr

/-- Model of Python's `str.endswith(suffix)`. -/
def pyEndsWith (s suf : String) : Bool := isPre suf.data.reverse s.data.reverse

/-- The Enter/Right handler's body once a valid item is selected.  The
directory branch probes the listing before switching; the `.py` branch
suspends curses, runs `python3 <path>` and in `finally` restores curses,
sets the status and refreshes reselecting the same name; the view branch
resolves `less` via `shutil.which` *before* suspending and, when it is
missing, only reports (`curses.flash`) without suspension. -/
def openItem (s : NavState) (fs : FS) (h : Nat) (whichLess : Option (List String))
    (runOut viewOut : SpawnOutcome) (item : Entry) : ActionResult :=
  if strContains item.name "[?]" then
    let a := "Cannot open inaccessible item: " ++ item.name
    ⟨{ s with status_message := a }, a, []⟩
  else if item.is_dir then
    match get_directory_contents fs item.path with
    | some _ =>
      let s1 := { s with current_path := item.path }
      ⟨refresh_contents fs h item.path none s1, "", [.refreshEff item.path]⟩
    | none =>
      let a := "Permission denied: " ++ pathStr item.path
      ⟨{ s with status_message := a }, a, []⟩
  else if pyEndsWith item.name ".py" then
    let a := match runOut with
      | .exited c => "Returned from '" ++ item.name ++ "' (code: " ++ toString c ++ ")."
      | .spawnNotFound => "Error: python3 not found."
      | .failed e => "Error running script: " ++ e
    let spawnEffs := match runOut with
      | .exited _ => [Eff.spawnRun item.path]
      | _ => []
    let s1 := { s with status_message := a }
    let s2 := refresh_contents fs h s.current_path (some item.name) s1
    ⟨{ s2 with status_message := a }, a,
      [Eff.suspend] ++ spawnEffs ++ [Eff.restore, Eff.refreshEff s.current_path]⟩
  else
    match whichLess with
    | none =>
      let a := "Error: 'less' command not found. Cannot view file."
      ⟨{ s with status_message := a }, a, []⟩
    | some _ =>
      let a := match viewOut with
        | .exited _ => "Closed viewer for '" ++ item.name ++ "'."
        | .spawnNotFound => "Error viewing file: [Errno 2] No such file or directory"
        | .failed e => "Error viewing file: " ++ e
      let spawnEffs := match viewOut with
        | .exited _ => [Eff.spawnView item.path]
        | _ => []
      let s1 := { s with status_message := a }
      let s2 := refresh_contents fs h s.current_path (some item.name) s1
      ⟨{ s2 with status_message := a }, a,
        [Eff.suspend] ++ spawnEffs ++ [Eff.restore, Eff.refreshEff s.current_path]⟩

/-- The Enter/Right (open/run/view) key handler. -/
def openAction (s : NavState) (fs : FS) (h : Nat) (whichLess : Option (List String))
    (runOut viewOut : SpawnOutcome) : ActionResult :=
  match s.contents_cache[s.selected_index]? with
  | none => ⟨s, "", []⟩
  | some item => openItem s fs h whichLess runOut viewOut item

/-- The Backspace/Left/`u` (go to parent) handler: compute the parent, and
when it differs from the current path, probe it and refresh re-selecting the
current directory's base name. -/
def backAction (s : NavState) (fs : FS) (h : Nat) : ActionResult :=
  let parent := s.current_path.dropLast
  if parent = s.current_path then ⟨s, "", []⟩
  else
    let old_basename := match s.current_path.getLast? with
      | some b => b
      | none => ""
    match get_directory_contents fs parent with
    | some _ =>
      let s1 := { s with current_path := parent }
      ⟨refresh_contents fs h parent (some old_basename) s1, "", [.refreshEff parent]⟩
    | none =>
      let a := "Permission denied: " ++ pathStr parent
      ⟨{ s with status_message := a }, a, []⟩

/-- The `d` (delete) handler's body for a selected item.  The inaccessible
branch `continue`s (so the loop-bottom status merge is skipped); a confirmed
directory is removed only when `os.listdir` shows it empty; after a
successful removal the handler refreshes and clamps the previous index, the
refresh being skipped when the status contains `"Error"`. -/
def deleteItem (s : NavState) (fs : FS) (h : Nat) (confirmed : Bool)
    (item : Entry) : ActionResult :=
  if strContains item.name "[?]" then
    ⟨s, "Cannot delete inaccessible item.", []⟩
  else if confirmed then
    let prev_idx := s.selected_index
    let tried : String × List Eff :=
      if item.is_dir then
        match fs item.path with
        | .ok raw =>
          if raw.isEmpty then
            ("Directory '" ++ item.name ++ "' deleted.", [.rmdirEff item.path])
          else
            ("Error: Dir '" ++ item.name ++ "' not empty.", [])
        | _ => ("Error deleting: [listing failed]", [])
      else
        ("File '" ++ item.name ++ "' deleted.", [.removeEff item.path])
    let a := tried.1
    if strContains a "Error" then
      ⟨{ s with status_message := a }, a, tried.2⟩
    else
      let s1 := refresh_contents fs h s.current_path none { s with status_message := a }
      let sel2 := if s1.contents_cache.isEmpty then 0
                  else min prev_idx (s1.contents_cache.length - 1)
      ⟨{ s1 with selected_index := sel2, status_message := a }, a,
        tried.2 ++ [.refreshEff s.current_path]⟩
  else
    ⟨{ s with status_message := "Delete cancelled." }, "Delete cancelled.", []⟩

/-- The `d` (delete) key handler. -/
def deleteAction (s : NavState) (fs : FS) (h : Nat) (confirmed : Bool) : ActionResult :=
  match s.contents_cache[s.selected_index]? with
  | none => ⟨s, "", []⟩
  | some item => deleteItem s fs h confirmed item

/-- `destination.split("/")` dropping empty components. -/
def splitPath (d : String) : List String := (d.splitOn "/").filter (fun c => c ≠ "")

/-- `os.path.normpath` on a component sequence: drop `.`, let `..` pop the
previous component (at the root it stays at the root). -/
def normComps (cs : List String) : List String :=
  cs.foldl (fun acc c => if c = "." then acc else if c = ".." then acc.dropLast else acc ++ [c]) []

/-- `os.path.normpath(os.path.join(current, d))` for a destination string
`d` that contains a separator: an absolute `d` replaces `current`. -/
def resolveDest (current : List String) (d : String) : List String :=
  normComps (if d.startsWith "/" then splitPath d else current ++ splitPath d)

/-- The `r` (rename/move) handler's body for a selected item.  Both the
inaccessible branch and the identical source/destination branch `continue`.
A separator-free destination is joined to the current path un-normalised. -/
def renameItem (s : NavState) (fs : FS) (h : Nat) (destination : Option String)
    (item : Entry) : ActionResult :=
  if strContains item.name "[?]" then
    ⟨s, "Cannot rename inaccessible item.", []⟩
  else
    match destination with
    | none => ⟨{ s with status_message := "Rename/Move cancelled." },
               "Rename/Move cancelled.", []⟩
    | some d =>
      let dest_path := if strContains d "/" then resolveDest s.current_path d
                       else s.current_path ++ [d]
      if item.path = dest_path then ⟨s, "Source and destination are same.", []⟩
      else
        let a := "Moved/Renamed to '" ++ d ++ "'."
        let base := match dest_path.getLast? with
          | some b => b
          | none => ""
        let s1 := refresh_contents fs h s.current_path (some base) { s with status_message := a }
        ⟨{ s1 with status_message := a }, a,
          [.moveOp item.path dest_path, .refreshEff s.current_path]⟩

/-- The `r` (rename/move) key handler. -/
def renameAction (s : NavState) (fs : FS) (h : Nat) (destination : Option String) : ActionResult :=
  match s.contents_cache[s.selected_index]? with
  | none => ⟨s, "", []⟩
  | some item => renameItem s fs h destination item

/-- `os.path.isdir` through the listing oracle: a path that lists (even with
a permission error) is a directory, a `notFound` one is not. -/
def isDirFs (fs : FS) (p : List String) : Bool :=
  match fs p with
  | .notFound => false
  | _ => true

/-- The `c` (copy) handler's body for a selected item.  The inaccessible,
directory, identical-path and declined-overwrite branches all `continue`;
a destination resolving to an existing directory gets the source's base
name appended; success refreshes re-selecting the *source* name.
`fsEx` is the `os.path.exists` oracle. -/
def copyItem (s : NavState) (fs : FS) (fsEx : List String → Bool) (h : Nat)
    (destination : Option String) (confirmOverwrite : Bool) (item : Entry) : ActionResult :=
  if strContains item.name "[?]" then
    ⟨s, "Cannot copy inaccessible item.", []⟩
  else if item.is_dir then
    ⟨s, "Directory copy not implemented.", []⟩
  else
    match destination with
    | none => ⟨{ s with status_message := "Copy cancelled." }, "Copy cancelled.", []⟩
    | some d =>
      let dp0 := resolveDest s.current_path d
      let dest_path := if isDirFs fs dp0 then dp0 ++ [item.name] else dp0
      if item.path = dest_path then ⟨s, "Source and destination are same.", []⟩
      else if fsEx dest_path && !confirmOverwrite then ⟨s, "Copy cancelled.", []⟩
      else
        let a := "Copied to '" ++ d ++ "'."
        let s1 := refresh_contents fs h s.current_path (some item.name) { s with status_message := a }
        ⟨{ s1 with status_message := a }, a,
          [.copyOp item.path dest_path, .refreshEff s.current_path]⟩

/-- The `c` (copy) key handler. -/
def copyAction (s : NavState) (fs : FS) (fsEx : List String → Bool) (h : Nat)
    (destination : Option String) (confirmOverwrite : Bool) : ActionResult :=
  match s.contents_cache[s.selected_index]? with
  | none => ⟨s, "", []⟩
  | some item => copyItem s fs fsEx h destination confirmOverwrite item

/-! Concrete fixtures used by the scenario theorems and witnesses. -/

/-- A regular file's `lstat` result (`mode 0o100644`). -/
def fileStat (sz : Int) : StatResult := ⟨sz, 1700000002, 33188⟩

/-- A directory's `lstat` result (`mode 0o40755`). -/
def dirStat : StatResult := ⟨4096, 1700000000, 16877⟩

/-- Entry for `/home/script.py`. -/
def ePy : Entry := ⟨"script.py", ["home", "script.py"], false, some 10, some 1700000002, 33188⟩

/-- Entry for `/home/notes.txt`. -/
def eTxt : Entry := ⟨"notes.txt", ["home", "notes.txt"], false, some 3, some 1700000002, 33188⟩

/-- A home directory holding a python script and a text file. -/
def fsHome : FS := fun p =>
  if p = ["home"] then
    .ok [("script.py", some (fileStat 10)), ("notes.txt", some (fileStat 3))]
  else .notFound

/-- Browsing `/home` with the script selected. -/
def sPy : NavState := ⟨["home"], [ePy, eTxt], 0, 0, ""⟩

/-- Browsing `/home` with the text file selected. -/
def sTxt : NavState := ⟨["home"], [ePy, eTxt], 1, 0, ""⟩

/-- Entry for the subdirectory `/home/docs`. -/
def eDocs : Entry := ⟨"docs", ["home", "docs"], true, some (-1), some 1700000000, 16877⟩

/-- A home directory holding one (empty, readable) subdirectory. -/
def fsTwo : FS := fun p =>
  if p = ["home"] then .ok [("docs", some dirStat)]
  else if p = ["home", "docs"] then .ok []
  else .notFound

/-- Browsing `/home` with the `docs` directory selected. -/
def sDocs : NavState := ⟨["home"], [eDocs], 0, 0, ""⟩

/-- Entry for the non-empty subdirectory `/home/sub`. -/
def eSub : Entry := ⟨"sub", ["home", "sub"], true, some (-1), some 1700000000, 16877⟩

/-- A home directory holding one non-empty subdirectory. -/
def fsDel : FS := fun p =>
  if p = ["home"] then .ok [("sub", some dirStat)]
  else if p = ["home", "sub"] then .ok [("x.txt", some (fileStat 1))]
  else .notFound

/-- Browsing `/home` with the non-empty `sub` directory selected. -/
def sDel : NavState := ⟨["home"], [eSub], 0, 0, ""⟩

/-- Raw listing where `ghost`'s per-entry stat fails and `ok.txt`'s works. -/
def rawGhost : List (String × Option StatResult) :=
  [("ghost", none), ("ok.txt", some (fileStat 3))]

/-- A directory whose listing contains one stat-failing entry. -/
def fsGhost : FS := fun p => if p = ["r"] then .ok rawGhost else .notFound

/-- A fully accessible file whose genuine name contains the `[?]` marker. -/
def eMark : Entry :=
  ⟨"data[?]file.txt", ["home", "data[?]file.txt"], false, some 5, some 1700000002, 33188⟩

/-- Browsing `/home` with the marker-named file selected. -/
def sMark : NavState := ⟨["home"], [eMark], 0, 0, ""⟩

/-- The everywhere-vanished filesystem. -/
def fsNone : FS := fun _ => .notFound

/-- A state with an empty entry cache. -/
def s0w : NavState := ⟨["r"], [], 0, 0, ""⟩

/-- The C4 scenario listing: raw order `b.txt`, `A` (a directory), `a.txt`. -/
def fsScen : FS := fun p =>
  if p = ["root"] then
    .ok [("b.txt", some (fileStat 20)), ("A", some dirStat), ("a.txt", some (fileStat 10))]
  else .notFound

/-- The sorted entries the C4 scenario must produce. -/
def scenEntries : List Entry :=
  [⟨"A", ["root", "A"], true, some (-1), some 1700000000, 16877⟩,
   ⟨"a.txt", ["root", "a.txt"], false, some 10, some 1700000002, 33188⟩,
   ⟨"b.txt", ["root", "b.txt"], false, some 20, some 1700000002, 33188⟩]

/-- The sorted entries listing `/r` with the failed-stat `ghost` produces. -/
def ghostEntries : List Entry :=
  [⟨"ghost [?]", ["r", "ghost"], false, none, none, 0⟩,
   ⟨"ok.txt", ["r", "ok.txt"], false, some 3, some 1700000002, 33188⟩]

/-! Helper lemmas. -/

theorem isPre_append (n : List Char) :
    ∀ (a r : List Char), isPre n a = true → isPre n (a ++ r) = true := by
  induction n with
  | nil => intro a r _; rfl
  | cons x xs ih =>
    intro a r hp
    cases a with
    | nil => simp [isPre] at hp
    | cons y ys =>
      simp only [isPre, Bool.and_eq_true] at hp ⊢
      exact ⟨hp.1, ih ys r hp.2⟩

theorem strContains_of_isPre (hay needle : String)
    (hp : isPre needle.data hay.data = true) : strContains hay needle = true := by
  unfold strContains
  rw [List.any_eq_true]
  exact ⟨0, List.mem_range.mpr (Nat.succ_pos _), by simpa using hp⟩

theorem errorDirContains (x : String) :
    strContains ("Error: Dir '" ++ x ++ "' not empty.") "Error" = true := by
  apply strContains_of_isPre
  obtain ⟨xd⟩ := x
  have hd : ("Error: Dir '" ++ String.mk xd ++ "' not empty.").data
      = "Error: Dir '".data ++ (xd ++ "' not empty.".data) := by
    simp [String.data_append]
  rw [hd]
  exact isPre_append _ _ _ (by decide)

theorem refreshedSelf : strContains "Refreshed." "Refreshed." = true := by decide

theorem firstIdx_spec {p : Entry → Bool} :
    ∀ {l : List Entry}, (∃ e ∈ l, p e = true) →
    ∃ i, firstIdx p l = some i ∧ ∃ (hi : i < l.length), p (l.get ⟨i, hi⟩) = true := by
  intro l hx
  induction l with
  | nil => simp at hx
  | cons a t ih =>
    by_cases ha : p a = true
    · exact ⟨0, by simp [firstIdx, ha], Nat.succ_pos _, ha⟩
    · have hx' : ∃ e ∈ t, p e = true := by
        obtain ⟨e, he, hpe⟩ := hx
        rcases List.mem_cons.mp he with rfl | het
        · exact absurd hpe ha
        · exact ⟨e, het, hpe⟩
      obtain ⟨j, hj, hjl, hpj⟩ := ih hx'
      refine ⟨j + 1, ?_, Nat.succ_lt_succ hjl, ?_⟩
      · simp [firstIdx, ha, hj]
      · simpa using hpj

theorem refresh_fields (fs : FS) (h : Nat) (path : List String) (nm : Option String)
    (s : NavState) (cs : List Entry) (hg : get_directory_contents fs path = some cs) :
    (refresh_contents fs h path nm s).current_path = s.current_path ∧
    (refresh_contents fs h path nm s).contents_cache = cs ∧
    (refresh_contents fs h path nm s).selected_index = (refreshSelect h cs nm).1 ∧
    (refresh_contents fs h path nm s).scroll_offset = (refreshSelect h cs nm).2 := by
  simp [refresh_contents, hg]

theorem refreshSelect_found (h : Nat) (cs : List Entry) (n : String) (hn : n ≠ "")
    (hex : ∃ e ∈ cs, e.name = n) :
    ∃ (hlt : (refreshSelect h cs (some n)).1 < cs.length),
      (cs.get ⟨(refreshSelect h cs (some n)).1, hlt⟩).name = n := by
  obtain ⟨e, he, hen⟩ := hex
  have hex' : ∃ x ∈ cs, (fun y => y.name == n) x = true := ⟨e, he, by simp [hen]⟩
  obtain ⟨i, hi, hlt, hp⟩ := firstIdx_spec hex'
  simp only [refreshSelect, if_neg hn, hi]
  exact ⟨hlt, by simpa using hp⟩

theorem clampSel_cache (s : NavState) : (clampSel s).contents_cache = s.contents_cache := by
  unfold clampSel; split_ifs <;> rfl

theorem clampSel_sel (s : NavState) :
    (s.contents_cache = [] → (clampSel s).selected_index = 0) ∧
    (s.contents_cache ≠ [] → (clampSel s).selected_index < s.contents_cache.length) := by
  unfold clampSel
  by_cases he : s.contents_cache.isEmpty = true
  · rw [if_pos he]
    refine ⟨fun _ => rfl, fun hne => absurd (List.isEmpty_iff.mp he) hne⟩
  · rw [if_neg he]
    constructor
    · intro h0
      exact absurd (by simp [h0]) he
    · intro hne
      have hpos : 0 < s.contents_cache.length := List.length_pos.mpr hne
      have hm : min s.selected_index (s.contents_cache.length - 1) < s.contents_cache.length := by
        omega
      exact hm

theorem renderScroll_fields (h : Nat) (s : NavState) :
    (renderScroll h s).current_path = s.current_path ∧
    (renderScroll h s).contents_cache = s.contents_cache ∧
    (renderScroll h s).selected_index = s.selected_index ∧
    (renderScroll h s).status_message = s.status_message := by
  unfold renderScroll; split_ifs <;> exact ⟨rfl, rfl, rfl, rfl⟩

theorem renderScroll_bounds (h : Nat) (s : NavState) (hh : 1 ≤ h) :
    (renderScroll h s).scroll_offset ≤ (renderScroll h s).selected_index ∧
    (renderScroll h s).selected_index ≤ (renderScroll h s).scroll_offset + h - 1 := by
  unfold renderScroll
  split_ifs with h1 h2 <;> constructor <;> (try simp) <;> omega

/-! Claim theorems. -/

/-- Claim C3: for every non-empty entry sequence and after any sequence of
MoveUp/MoveDown/PageUp/PageDown/Refresh events followed by a render pass,
`0 ≤ selectedIndex < len(entries)` and
`scrollOffset ≤ selectedIndex ≤ scrollOffset + viewportHeight - 1`; when
entries is empty, `selectedIndex = 0`.  (`h ≥ 1` is the viewport height
`content_height`, positive whenever the too-small guard lets the frame
render.) -/
theorem selection_viewport_invariant (fs : FS) (h : Nat) (events : List NavEvent)
    (s0 t : NavState) (hh : 1 ≤ h)
    (ht : t = renderPass h (events.foldl (applyEvent fs h) s0)) :
    (t.contents_cache = [] → t.selected_index = 0) ∧
    (t.contents_cache ≠ [] →
      t.selected_index < t.contents_cache.length ∧
      t.scroll_offset ≤ t.selected_index ∧
      t.selected_index ≤ t.scroll_offset + h - 1) := by
  subst ht
  set u := events.foldl (applyEvent fs h) s0 with hu
  have hf := renderScroll_fields h (clampSel u)
  have hb := renderScroll_bounds h (clampSel u) hh
  have hc := clampSel_sel u
  have hcc := clampSel_cache u
  unfold renderPass
  constructor
  · intro he
    rw [hf.2.2.1]
    apply hc.1
    rw [← hcc, ← hf.2.1]
    exact he
  · intro hne
    refine ⟨?_, hb.1, hb.2⟩
    rw [hf.2.2.1, hf.2.1, hcc]
    exact hc.2 (by rw [← hcc, ← hf.2.1]; exact hne)

/-- Witness for C3 at viewport height 1, one MoveDown event on an empty
listing. -/
theorem selection_viewport_invariant_witness :
    1 ≤ 1 ∧
    ((s0w.contents_cache = [] → s0w.selected_index = 0) ∧
     (s0w.contents_cache ≠ [] →
       s0w.selected_index < s0w.contents_cache.length ∧
       s0w.scroll_offset ≤ s0w.selected_index ∧
       s0w.selected_index ≤ s0w.scroll_offset + 1 - 1)) :=
  ⟨Nat.le_refl 1,
   selection_viewport_invariant fsNone 1 [NavEvent.moveDown] s0w s0w (Nat.le_refl 1) (by decide)⟩

/-- Claim C7 counterexample: the render pass is not side-effect-free on the
state — with viewport height 1 and the selection on the second entry it
moves `scroll_offset`, so "leaving every state component unchanged" fails
at this concrete state. -/
theorem render_not_state_free_cex : renderScroll 1 sTxt ≠ sTxt := by decide

/-- Claim C7 (amended): the render pass only reads `currentPath`, `entries`,
`selectedIndex` and `statusMessage` and leaves them unchanged, and it is
idempotent; but it may re-clamp `scroll_offset` to bring the selection into
the viewport — a state already satisfying the viewport invariant is left
fully unchanged. -/
theorem render_touches_only_scroll (h : Nat) (s : NavState) (hh : 1 ≤ h) :
    (renderScroll h s).current_path = s.current_path ∧
    (renderScroll h s).contents_cache = s.contents_cache ∧
    (renderScroll h s).selected_index = s.selected_index ∧
    (renderScroll h s).status_message = s.status_message ∧
    renderScroll h (renderScroll h s) = renderScroll h s ∧
    (s.scroll_offset ≤ s.selected_index →
      s.selected_index ≤ s.scroll_offset + h - 1 → renderScroll h s = s) := by
  have hgen : ∀ t : NavState, t.scroll_offset ≤ t.selected_index →
      t.selected_index + 1 ≤ t.scroll_offset + h → renderScroll h t = t := by
    intro t h1 h2
    unfold renderScroll
    rw [if_neg (by omega), if_neg (by omega)]
  have hf := renderScroll_fields h s
  have hb := renderScroll_bounds h s hh
  refine ⟨hf.1, hf.2.1, hf.2.2.1, hf.2.2.2, ?_, ?_⟩
  · exact hgen (renderScroll h s) hb.1 (by omega)
  · intro h1 h2
    exact hgen s h1 (by omega)

/-- Witness for the amended C7 at viewport height 1 and the concrete state
with the text file selected. -/
theorem render_touches_only_scroll_witness :
    1 ≤ 1 ∧
    ((renderScroll 1 sTxt).current_path = sTxt.current_path ∧
     (renderScroll 1 sTxt).contents_cache = sTxt.contents_cache ∧
     (renderScroll 1 sTxt).selected_index = sTxt.selected_index ∧
     (renderScroll 1 sTxt).status_message = sTxt.status_message ∧
     renderScroll 1 (renderScroll 1 sTxt) = renderScroll 1 sTxt ∧
     (sTxt.scroll_offset ≤ sTxt.selected_index →
       sTxt.selected_index ≤ sTxt.scroll_offset + 1 - 1 → renderScroll 1 sTxt = sTxt)) :=
  ⟨Nat.le_refl 1, render_touches_only_scroll 1 sTxt (Nat.le_refl 1)⟩

/-- Claim C8: `Refresh(path, selectName)` is idempotent — with the same
arguments, the same terminal size and an unchanged filesystem, a second
`refresh_contents` call leaves the navigation state exactly as the first
left it. -/
theorem refresh_idempotent (fs : FS) (h : Nat) (path : List String)
    (nm : Option String) (s : NavState) :
    refresh_contents fs h path nm (refresh_contents fs h path nm s)
      = refresh_contents fs h path nm s := by
  obtain ⟨cp, cc, si, so, sm⟩ := s
  cases hg : get_directory_contents fs path with
  | none => simp [refresh_contents, hg]
  | some cs =>
    by_cases hc : strContains sm "Refreshed." = true
    · simp [refresh_contents, hg, hc, refreshedSelf]
    · have hc' : strContains sm "Refreshed." = false := by simpa using hc
      by_cases hsm : sm = ""
      · subst hsm
        simp [refresh_contents, hg, hc', refreshedSelf]
      · simp [refresh_contents, hg, hc', hsm]

/-- The sort relation implies the claim's ordering facts: directories
precede files, and within one group the lowercased names are ascending. -/
theorem entryLE_imp {a b : Entry} (hab : entryLE a b) :
    (b.is_dir = true → a.is_dir = true) ∧
    (a.is_dir = b.is_dir → strLe (pyLower a.name) (pyLower b.name) = true) := by
  unfold entryLE entryLEb at hab
  by_cases hd : a.is_dir = b.is_dir
  · rw [if_pos hd] at hab
    exact ⟨fun hb => hd.trans hb, fun _ => hab⟩
  · rw [if_neg hd] at hab
    exact ⟨fun _ => hab, fun he => absurd he hd⟩

/-- Claim C4: every successful listing is ordered with all directories
before all files and, within each group, names ascending under the
case-insensitive (lowercased, code-point) comparison; and the scenario
listing of raw entries `b.txt`, `A/` (a directory), `a.txt` comes out in
the order `A/`, `a.txt`, `b.txt`. -/
theorem listing_sorted_dirs_first :
    (∀ (fs : FS) (p : List String) (es : List Entry),
      get_directory_contents fs p = some es →
      es.Pairwise (fun a b => (b.is_dir = true → a.is_dir = true) ∧
        (a.is_dir = b.is_dir → strLe (pyLower a.name) (pyLower b.name) = true))) ∧
    (get_directory_contents fsScen ["root"]).map
        (fun es => es.map (fun e => (e.name, e.is_dir)))
      = some [("A", true), ("a.txt", false), ("b.txt", false)] := by
  constructor
  · intro fs p es hg
    unfold get_directory_contents at hg
    cases hfs : fs p with
    | permissionError => rw [hfs] at hg; exact absurd hg (by simp)
    | notFound =>
      rw [hfs] at hg
      injection hg with hg
      rw [← hg]
      exact List.Pairwise.nil
    | ok raw =>
      rw [hfs] at hg
      injection hg with hg
      rw [← hg]
      have hs : List.Pairwise entryLE (List.insertionSort entryLE (raw.map (mkItem p))) :=
        List.sorted_insertionSort entryLE (raw.map (mkItem p))
      exact hs.imp entryLE_imp
  · decide

/-- Witness for C4: the scenario listing is produced and the theorem's
ordering predicate holds on it. -/
theorem listing_sorted_dirs_first_witness :
    get_directory_contents fsScen ["root"] = some scenEntries ∧
    scenEntries.Pairwise (fun a b => (b.is_dir = true → a.is_dir = true) ∧
      (a.is_dir = b.is_dir → strLe (pyLower a.name) (pyLower b.name) = true)) :=
  ⟨by decide, listing_sorted_dirs_first.1 fsScen ["root"] scenEntries (by decide)⟩

/-- Claim C5: an entry whose per-entry stat fails is still returned (the
listing is neither aborted nor shortened), its name carries the `" [?]"`
marker, and its derived fields are defaulted (`size`/`mtime` absent,
`mode` zero). -/
theorem failed_stat_entry_retained (fs : FS) (p : List String)
    (raw : List (String × Option StatResult)) (nm : String) (es : List Entry)
    (hr : fs p = .ok raw)
    (hmem : (nm, (none : Option StatResult)) ∈ raw)
    (hg : get_directory_contents fs p = some es) :
    es.length = raw.length ∧
    ∃ e ∈ es, e.name = nm ++ " [?]" ∧ e.is_dir = false ∧ e.size = none ∧
      e.mtime = none ∧ e.mode = 0 ∧ e.path = p ++ [nm] := by
  unfold get_directory_contents at hg
  rw [hr] at hg
  injection hg with hg
  have hperm := List.perm_insertionSort entryLE (raw.map (mkItem p))
  rw [hg] at hperm
  constructor
  · rw [hperm.length_eq, List.length_map]
  · have hmm : mkItem p (nm, none) ∈ raw.map (mkItem p) :=
      List.mem_map_of_mem (mkItem p) hmem
    exact ⟨mkItem p (nm, none), hperm.mem_iff.mpr hmm, rfl, rfl, rfl, rfl, rfl, rfl⟩

/-- Witness for C5 on the listing with the stat-failing entry `ghost`. -/
theorem failed_stat_entry_retained_witness :
    ghostEntries.length = rawGhost.length ∧
    ∃ e ∈ ghostEntries, e.name = "ghost" ++ " [?]" ∧ e.is_dir = false ∧ e.size = none ∧
      e.mtime = none ∧ e.mode = 0 ∧ e.path = ["r"] ++ ["ghost"] :=
  failed_stat_entry_retained fsGhost ["r"] rawGhost "ghost" ghostEntries
    (by decide) (by decide) (by decide)

/-- Claim C6: a confirmed Delete on a non-empty directory is not attempted —
the handler produces the `OperationError` status (which contains `"Error"`,
so the refresh is skipped), performs no filesystem effect and no refresh,
and leaves the state unchanged apart from the status line (in particular
the entries are unchanged). -/
theorem delete_nonempty_dir_rejected (s : NavState) (fs : FS) (h : Nat)
    (raw : List (String × Option StatResult)) (item : Entry)
    (hi : s.contents_cache[s.selected_index]? = some item)
    (hm : strContains item.name "[?]" = false)
    (hd : item.is_dir = true)
    (hl : fs item.path = .ok raw)
    (hne : raw ≠ []) :
    deleteAction s fs h true
      = ⟨{ s with status_message := "Error: Dir '" ++ item.name ++ "' not empty." },
         "Error: Dir '" ++ item.name ++ "' not empty.", []⟩ ∧
    strContains ("Error: Dir '" ++ item.name ++ "' not empty.") "Error" = true := by
  have hE := errorDirContains item.name
  have hraw : raw.isEmpty = false := by
    cases raw with
    | nil => exact absurd rfl hne
    | cons a t => rfl
  refine ⟨?_, hE⟩
  simp [deleteAction, deleteItem, hi, hm, hd, hl, hraw, hE]

/-- Witness for C6: deleting the confirmed non-empty directory `sub`. -/
theorem delete_nonempty_dir_rejected_witness :
    deleteAction sDel fsDel 5 true
      = ⟨{ sDel with status_message := "Error: Dir '" ++ eSub.name ++ "' not empty." },
         "Error: Dir '" ++ eSub.name ++ "' not empty.", []⟩ ∧
    strContains ("Error: Dir '" ++ eSub.name ++ "' not empty.") "Error" = true :=
  delete_nonempty_dir_rejected sDel fsDel 5 [("x.txt", some (fileStat 1))] eSub
    (by decide) (by decide) (by decide) (by decide) (by decide)

/-- Claim C10: inaccessibility is decided by the `"[?]"` substring test on
the display name alone — any selected entry whose name contains it (even a
fully accessible file genuinely named so) has Open, Delete, Rename/Move and
Copy all rejected with the corresponding "Cannot … inaccessible item"
action status and no attempted effect.  (For Delete/Rename/Copy the
rejecting branch `continue`s, so the state — including the displayed status
line — is left completely unchanged; Open's rejection also lands in the
status line.) -/
theorem marker_rejects_all_operations (s : NavState) (fs : FS)
    (fsEx : List String → Bool) (h : Nat) (wl : Option (List String))
    (ro vo : SpawnOutcome) (conf cOv : Bool) (dest : Option String) (item : Entry)
    (hi : s.contents_cache[s.selected_index]? = some item)
    (hm : strContains item.name "[?]" = true) :
    openAction s fs h wl ro vo
      = ⟨{ s with status_message := "Cannot open inaccessible item: " ++ item.name },
         "Cannot open inaccessible item: " ++ item.name, []⟩ ∧
    deleteAction s fs h conf = ⟨s, "Cannot delete inaccessible item.", []⟩ ∧
    renameAction s fs h dest = ⟨s, "Cannot rename inaccessible item.", []⟩ ∧
    copyAction s fs fsEx h dest cOv = ⟨s, "Cannot copy inaccessible item.", []⟩ := by
  refine ⟨?_, ?_, ?_, ?_⟩
  · simp [openAction, openItem, hi, hm]
  · simp [deleteAction, deleteItem, hi, hm]
  · simp [renameAction, renameItem, hi, hm]
  · simp [copyAction, copyItem, hi, hm]

/-- Witness for C10: the fully accessible file genuinely named
`data[?]file.txt` is rejected by all four operations. -/
theorem marker_rejects_all_operations_witness :
    strContains eMark.name "[?]" = true ∧
    (openAction sMark fsHome 5 none (SpawnOutcome.exited 0) (SpawnOutcome.exited 0)
      = ⟨{ sMark with status_message := "Cannot open inaccessible item: " ++ eMark.name },
         "Cannot open inaccessible item: " ++ eMark.name, []⟩ ∧
     deleteAction sMark fsHome 5 true = ⟨sMark, "Cannot delete inaccessible item.", []⟩ ∧
     renameAction sMark fsHome 5 (some "x") = ⟨sMark, "Cannot rename inaccessible item.", []⟩ ∧
     copyAction sMark fsHome (fun _ => false) 5 (some "x") true
      = ⟨sMark, "Cannot copy inaccessible item.", []⟩) :=
  ⟨by decide,
   marker_rejects_all_operations sMark fsHome (fun _ => false) 5 none
     (SpawnOutcome.exited 0) (SpawnOutcome.exited 0) true true (some "x") eMark
     (by decide) (by decide)⟩

/-- Claim C1 counterexample: opening the selected `script.py` while
`python3` is not resolvable reports the error in the status line, but the
invocation *does* enter the terminal-suspended state (`curses.endwin` runs
before `subprocess.run` raises), so the claim's "never enters the
terminal-suspended state" fails at this concrete invocation. -/
theorem open_missing_interpreter_suspends_cex :
    Eff.suspend ∈ (openAction sPy fsHome 5 (some ["usr", "bin", "less"])
      SpawnOutcome.spawnNotFound (SpawnOutcome.exited 0)).effs ∧
    (openAction sPy fsHome 5 (some ["usr", "bin", "less"])
      SpawnOutcome.spawnNotFound (SpawnOutcome.exited 0)).action_status
      = "Error: python3 not found." := by decide

/-- Claim C1 (amended): for an open on a selected regular file with the
external tool unresolvable, the error is always reported in the status
line; in view mode (pager missing, checked by `shutil.which` before
suspension) the invocation never enters the terminal-suspended state,
but in run mode (interpreter missing) the terminal is suspended before the
spawn fails and is then restored. -/
theorem open_missing_tool_reporting (s : NavState) (fs : FS) (h : Nat)
    (wl : Option (List String)) (ro vo : SpawnOutcome) (item : Entry)
    (hi : s.contents_cache[s.selected_index]? = some item)
    (hm : strContains item.name "[?]" = false)
    (hd : item.is_dir = false) :
    (pyEndsWith item.name ".py" = false →
      (openAction s fs h none ro vo).action_status
          = "Error: 'less' command not found. Cannot view file." ∧
      (openAction s fs h none ro vo).state.status_message
          = "Error: 'less' command not found. Cannot view file." ∧
      (openAction s fs h none ro vo).effs = []) ∧
    (pyEndsWith item.name ".py" = true →
      (openAction s fs h wl SpawnOutcome.spawnNotFound vo).action_status
          = "Error: python3 not found." ∧
      (openAction s fs h wl SpawnOutcome.spawnNotFound vo).state.status_message
          = "Error: python3 not found." ∧
      Eff.suspend ∈ (openAction s fs h wl SpawnOutcome.spawnNotFound vo).effs ∧
      ∃ pre post,
        (openAction s fs h wl SpawnOutcome.spawnNotFound vo).effs
          = pre ++ Eff.restore :: post ∧ Eff.suspend ∈ pre) := by
  constructor
  · intro hpy
    refine ⟨?_, ?_, ?_⟩ <;> simp [openAction, openItem, hi, hm, hd, hpy]
  · intro hpy
    refine ⟨?_, ?_, ?_, ?_⟩
    · simp [openAction, openItem, hi, hm, hd, hpy]
    · simp [openAction, openItem, hi, hm, hd, hpy]
    · simp [openAction, openItem, hi, hm, hd, hpy]
    · refine ⟨[Eff.suspend], [Eff.refreshEff s.current_path], ?_, by simp⟩
      simp [openAction, openItem, hi, hm, hd, hpy]

/-- Witness for the amended C1: viewing `notes.txt` with no resolvable
pager. -/
theorem open_missing_tool_reporting_witness :
    sTxt.contents_cache[sTxt.selected_index]? = some eTxt ∧
    strContains eTxt.name "[?]" = false ∧
    eTxt.is_dir = false ∧
    ((pyEndsWith eTxt.name ".py" = false →
      (openAction sTxt fsHome 5 none (SpawnOutcome.exited 0) (SpawnOutcome.exited 0)).action_status
          = "Error: 'less' command not found. Cannot view file." ∧
      (openAction sTxt fsHome 5 none (SpawnOutcome.exited 0)
          (SpawnOutcome.exited 0)).state.status_message
          = "Error: 'less' command not found. Cannot view file." ∧
      (openAction sTxt fsHome 5 none (SpawnOutcome.exited 0) (SpawnOutcome.exited 0)).effs = []) ∧
     (pyEndsWith eTxt.name ".py" = true →
      (openAction sTxt fsHome 5 none SpawnOutcome.spawnNotFound (SpawnOutcome.exited 0)).action_status
          = "Error: python3 not found." ∧
      (openAction sTxt fsHome 5 none SpawnOutcome.spawnNotFound
          (SpawnOutcome.exited 0)).state.status_message
          = "Error: python3 not found." ∧
      Eff.suspend ∈ (openAction sTxt fsHome 5 none SpawnOutcome.spawnNotFound
          (SpawnOutcome.exited 0)).effs ∧
      ∃ pre post,
        (openAction sTxt fsHome 5 none SpawnOutcome.spawnNotFound (SpawnOutcome.exited 0)).effs
          = pre ++ Eff.restore :: post ∧ Eff.suspend ∈ pre)) :=
  ⟨by decide, by decide, by decide,
   open_missing_tool_reporting sTxt fsHome 5 none (SpawnOutcome.exited 0)
     (SpawnOutcome.exited 0) eTxt (by decide) (by decide) (by decide)⟩

/-- Claim C2: every open invocation that enters the Suspended state (its
effect trace contains a suspension) restores the terminal exactly once
before control returns — the trace contains exactly one restore, it comes
after the suspension, and this holds on every exit path: normal or
non-zero child exit, spawn failure (tool not found), and any other
exception while spawning/waiting. -/
theorem bridge_restores_exactly_once (s : NavState) (fs : FS) (h : Nat)
    (wl : Option (List String)) (ro vo : SpawnOutcome)
    (hs : Eff.suspend ∈ (openAction s fs h wl ro vo).effs) :
    ∃ pre post,
      (openAction s fs h wl ro vo).effs = pre ++ Eff.restore :: post ∧
      Eff.suspend ∈ pre ∧ Eff.restore ∉ pre ∧ Eff.restore ∉ post := by
  cases hcc : s.contents_cache[s.selected_index]? with
  | none => rw [openAction] at hs; simp [hcc] at hs
  | some item =>
    simp only [openAction, hcc] at hs ⊢
    cases hm : strContains item.name "[?]" with
    | true => simp [openItem, hm] at hs
    | false =>
      cases hd : item.is_dir with
      | true =>
        cases hg : get_directory_contents fs item.path with
        | none => simp [openItem, hm, hd, hg] at hs
        | some cs => simp [openItem, hm, hd, hg] at hs
      | false =>
        cases hpy : pyEndsWith item.name ".py" with
        | true =>
          cases ro with
          | exited c =>
            refine ⟨[Eff.suspend, Eff.spawnRun item.path],
              [Eff.refreshEff s.current_path], ?_, ?_, ?_, ?_⟩ <;>
              simp [openItem, hm, hd, hpy]
          | spawnNotFound =>
            refine ⟨[Eff.suspend], [Eff.refreshEff s.current_path], ?_, ?_, ?_, ?_⟩ <;>
              simp [openItem, hm, hd, hpy]
          | failed e =>
            refine ⟨[Eff.suspend], [Eff.refreshEff s.current_path], ?_, ?_, ?_, ?_⟩ <;>
              simp [openItem, hm, hd, hpy]
        | false =>
          cases wl with
          | none => simp [openItem, hm, hd, hpy] at hs
          | some lp =>
            cases vo with
            | exited c =>
              refine ⟨[Eff.suspend, Eff.spawnView item.path],
                [Eff.refreshEff s.current_path], ?_, ?_, ?_, ?_⟩ <;>
                simp [openItem, hm, hd, hpy]
            | spawnNotFound =>
              refine ⟨[Eff.suspend], [Eff.refreshEff s.current_path], ?_, ?_, ?_, ?_⟩ <;>
                simp [openItem, hm, hd, hpy]
            | failed e =>
              refine ⟨[Eff.suspend], [Eff.refreshEff s.current_path], ?_, ?_, ?_, ?_⟩ <;>
                simp [openItem, hm, hd, hpy]

/-- Witness for C2: running `script.py` with a missing interpreter enters
the Suspended state and the theorem yields the single restore. -/
theorem bridge_restores_exactly_once_witness :
    Eff.suspend ∈ (openAction sPy fsHome 5 none SpawnOutcome.spawnNotFound
      (SpawnOutcome.exited 0)).effs ∧
    ∃ pre post,
      (openAction sPy fsHome 5 none SpawnOutcome.spawnNotFound
        (SpawnOutcome.exited 0)).effs = pre ++ Eff.restore :: post ∧
      Eff.suspend ∈ pre ∧ Eff.restore ∉ pre ∧ Eff.restore ∉ post :=
  ⟨by decide,
   bridge_restores_exactly_once sPy fsHome 5 none SpawnOutcome.spawnNotFound
     (SpawnOutcome.exited 0) (by decide)⟩

/-- Claim C9: opening a selected accessible directory and then going Back
(with no intervening filesystem change and both listings succeeding)
restores `currentPath` to the original path, and the selection lands on the
entry whose name equals the opened directory's base name when such an entry
still exists in the restored listing. -/
theorem open_then_back_roundtrip (s : NavState) (fs : FS) (h : Nat)
    (wl : Option (List String)) (ro vo : SpawnOutcome) (item : Entry)
    (cs0 cs1 : List Entry)
    (hi : s.contents_cache[s.selected_index]? = some item)
    (hm : strContains item.name "[?]" = false)
    (hd : item.is_dir = true)
    (hp : item.path = s.current_path ++ [item.name])
    (hn : item.name ≠ "")
    (ho : get_directory_contents fs item.path = some cs1)
    (hb : get_directory_contents fs s.current_path = some cs0)
    (hex : ∃ e ∈ cs0, e.name = item.name) :
    (backAction (openAction s fs h wl ro vo).state fs h).state.current_path
        = s.current_path ∧
    (backAction (openAction s fs h wl ro vo).state fs h).state.contents_cache = cs0 ∧
    ∃ (hlt : (backAction (openAction s fs h wl ro vo).state fs h).state.selected_index
        < cs0.length),
      (cs0.get ⟨(backAction (openAction s fs h wl ro vo).state fs h).state.selected_index,
        hlt⟩).name = item.name := by
  have h1 : (openAction s fs h wl ro vo).state
      = refresh_contents fs h item.path none { s with current_path := item.path } := by
    simp [openAction, openItem, hi, hm, hd, ho]
  have hof := refresh_fields fs h item.path none { s with current_path := item.path } cs1 ho
  have hcp1 : (openAction s fs h wl ro vo).state.current_path = item.path := by
    rw [h1]; simpa using hof.1
  set s1 := (openAction s fs h wl ro vo).state with hs1
  have hpar : s1.current_path.dropLast = s.current_path := by
    rw [hcp1, hp]; simp
  have hneq : ¬ s1.current_path.dropLast = s1.current_path := by
    rw [hpar, hcp1, hp]
    intro he
    have hlen := congrArg List.length he
    simp at hlen
  have hlast : s1.current_path.getLast? = some item.name := by
    rw [hcp1, hp]; simp
  have h2 : (backAction s1 fs h).state
      = refresh_contents fs h s.current_path (some item.name)
          { s1 with current_path := s.current_path } := by
    simp only [backAction]
    rw [if_neg hneq, hpar, hlast, hb]
  have hbf := refresh_fields fs h s.current_path (some item.name)
    { s1 with current_path := s.current_path } cs0 hb
  rw [h2]
  refine ⟨by simpa using hbf.1, hbf.2.1, ?_⟩
  rw [hbf.2.2.1]
  exact refreshSelect_found h cs0 item.name hn hex

/-- Witness for C9: opening `/home/docs` and going Back re-lists `/home`
and re-selects `docs`. -/
theorem open_then_back_roundtrip_witness :
    (backAction (openAction sDocs fsTwo 5 none (SpawnOutcome.exited 0)
        (SpawnOutcome.exited 0)).state fsTwo 5).state.current_path = sDocs.current_path ∧
    (backAction (openAction sDocs fsTwo 5 none (SpawnOutcome.exited 0)
        (SpawnOutcome.exited 0)).state fsTwo 5).state.contents_cache = [eDocs] ∧
    ∃ (hlt : (backAction (openAction sDocs fsTwo 5 none (SpawnOutcome.exited 0)
        (SpawnOutcome.exited 0)).state fsTwo 5).state.selected_index < [eDocs].length),
      (([eDocs].get ⟨(backAction (openAction sDocs fsTwo 5 none (SpawnOutcome.exited 0)
        (SpawnOutcome.exited 0)).state fsTwo 5).state.selected_index, hlt⟩).name = eDocs.name) :=
  open_then_back_roundtrip sDocs fsTwo 5 none (SpawnOutcome.exited 0) (SpawnOutcome.exited 0)
    eDocs [eDocs] [] (by decide) (by decide) (by decide) (by decide) (by decide)
    (by decide) (by decide) ⟨eDocs, by decide, rfl⟩

end FileManager
